import Mathlib

/-!
Shallow embedding of the White Owl Scenario Engine core (unit-economics /
LTV / CAC calculator, decision router, directive loader) and proofs of the
specification's claims about it.

Python floats are modelled as exact rationals (`ℚ`); the float value
`nan` produced by `app.py`'s `safe_div` is modelled by an explicit
`PyFloat.nan` constructor.  Python strings are modelled as `String`,
with the Python primitives (`lower`, `strip`, substring test `in`,
`replace`, whitespace collapsing) re-implemented structurally on the
underlying character lists so that every definition evaluates inside the
kernel.  Fallible Python code (functions that `raise`) is modelled with
`Except`.
-/

namespace WhiteOwl

/-- The whitespace characters Python's `str.strip` and the regex class
`\s` recognise for the ASCII range. -/
def isPyWs (c : Char) : Bool :=
  c = ' ' || c = '\t' || c = '\n' || c = '\r' || c = '\x0b' || c = '\x0c'

/-- Strip leading and trailing whitespace from a character list
(Python `str.strip`). -/
def stripChars (l : List Char) : List Char :=
  ((l.dropWhile isPyWs).reverse.dropWhile isPyWs).reverse

/-- Python `s.strip()`. -/
def pyStrip (s : String) : String := ⟨stripChars s.data⟩

/-- Python `s.lower()` (ASCII case folding, which covers every string the
repository classifies). -/
def pyLower (s : String) : String := ⟨s.data.map Char.toLower⟩

/-- Contiguous-sublist test on character lists: `isSubChars n h` is Python's
`n in h` for strings. -/
def isSubChars (needle : List Char) : List Char → Bool
  | [] => needle.isEmpty
  | c :: rest => needle.isPrefixOf (c :: rest) || isSubChars needle rest

/-- Python `needle in hay` for strings. -/
def isSub (needle hay : String) : Bool := isSubChars needle.data hay.data

/-- One pass of `re.sub(r"\s+", " ", s)`: every maximal whitespace run
becomes a single space.  The flag records whether the previous character
belonged to a whitespace run. -/
def collapseWsAux : Bool → List Char → List Char
  | _, [] => []
  | prevWs, c :: rest =>
    if isPyWs c then
      if prevWs then collapseWsAux true rest
      else ' ' :: collapseWsAux true rest
    else c :: collapseWsAux false rest

/-- `normalize_whitespace` from `decision_router_engine.py`:
`re.sub(r"\s+", " ", s).strip()`. -/
def normalize_whitespace (s : String) : String :=
  ⟨stripChars (collapseWsAux false s.data)⟩

/-- Python `filename.replace(".md", "")`: delete every (left-to-right,
non-overlapping) occurrence of `".md"`. -/
def replaceMdChars : List Char → List Char
  | [] => []
  | '.' :: 'm' :: 'd' :: rest => replaceMdChars rest
  | c :: rest => c :: replaceMdChars rest

/-- `filename.replace(".md", "")` on strings. -/
def replaceMd (s : String) : String := ⟨replaceMdChars s.data⟩

end WhiteOwl

/-! ## `app.py` — the committed unit-economics / LTV / CAC calculator -/

namespace App

/-- A Python float that is either a real (here: rational) value or the
`float("nan")` marker that `app.py`'s `safe_div` uses as its
divide-by-zero sentinel. -/
inductive PyFloat where
  | nan : PyFloat
  | val (q : ℚ) : PyFloat
deriving DecidableEq

/-- `math.isnan(x)` on the modelled float. -/
def PyFloat.isnanB : PyFloat → Bool
  | .nan => true
  | .val _ => false

/-- Python `x < 0` on the modelled float (`nan < 0` is `False`). -/
def PyFloat.ltZeroB : PyFloat → Bool
  | .nan => false
  | .val q => decide (q < 0)

/-- `safe_div` from `app.py`: `float("nan") if d == 0 else (n / d)`. -/
def safe_div (n d : ℚ) : PyFloat :=
  if d = 0 then .nan else .val (n / d)

/-- `clamp01` from `app.py`: `max(0.0, min(1.0, x))`. -/
def clamp01 (x : ℚ) : ℚ := max 0 (min 1 x)

/-- The scenario-input record consumed by `app.py`'s `compute` (the
`inputs` dict, minus the display-only scenario name). -/
structure Inputs where
  price : ℚ
  cogs_materials : ℚ
  packaging : ℚ
  shipping : ℚ
  payment_fee_rate : ℚ
  payment_fixed_fee : ℚ
  labor_minutes : ℚ
  labor_rate : ℚ
  overhead_rate : ℚ
  horizon_months : ℤ
  repeat_orders_per_year : ℚ
  gross_margin_holdback_rate : ℚ
  refunds_rate : ℚ
  ltv_to_cac_target : ℚ
  cac_assumed : ℚ

/-- The result dict returned by `app.py`'s `compute`. -/
structure Result where
  payment_fees : ℚ
  labor_cost : ℚ
  overhead_cost : ℚ
  variable_costs : ℚ
  gross_profit : ℚ
  contribution_margin : PyFloat
  expected_gp_after_refunds : ℚ
  buffered_gp : ℚ
  expected_orders : ℚ
  ltv : ℚ
  breakeven_cac : ℚ
  max_cac_for_target : PyFloat
  cac_assumed : ℚ
  ltv_cac_ratio : PyFloat
  warnings : List String

/-- `compute` from `app.py`, line for line (rates clamped into [0,1],
order-level unit economics, refund and holdback haircuts, expected
orders, LTV, CAC guardrails, diagnostics). -/
def compute (inputs : Inputs) : Result :=
  let price := inputs.price
  let payment_fee_rate := clamp01 inputs.payment_fee_rate
  let gross_margin_holdback_rate := clamp01 inputs.gross_margin_holdback_rate
  let refunds_rate := clamp01 inputs.refunds_rate
  let payment_fees := price * payment_fee_rate + inputs.payment_fixed_fee
  let labor_cost := (inputs.labor_minutes / 60) * inputs.labor_rate
  let overhead_cost := (inputs.labor_minutes / 60) * inputs.overhead_rate
  let variable_costs :=
    inputs.cogs_materials + inputs.packaging + inputs.shipping
      + payment_fees + labor_cost + overhead_cost
  let gross_profit := price - variable_costs
  let expected_gp_after_refunds := gross_profit * (1 - refunds_rate)
  let buffered_gp := expected_gp_after_refunds * (1 - gross_margin_holdback_rate)
  let contribution_margin := safe_div gross_profit price
  let expected_orders := max 0 ((inputs.repeat_orders_per_year / 12) * (inputs.horizon_months : ℚ))
  let ltv := buffered_gp * expected_orders
  let breakeven_cac := ltv
  let max_cac_for_target := safe_div ltv inputs.ltv_to_cac_target
  let cac_assumed := inputs.cac_assumed
  let ltv_cac_ratio := if cac_assumed > 0 then safe_div ltv cac_assumed else PyFloat.nan
  let warnings :=
    (if gross_profit < 0 then
      ["Gross Profit is negative. Pricing/cost structure is not viable as entered."] else [])
    ++ (if inputs.labor_minutes ≤ 0 then
      ["Labor minutes is 0 or negative. Enter realistic total labor time per unit."] else [])
    ++ (if expected_orders = 0 then
      ["Expected orders over horizon is 0. LTV will be 0; update repeat assumptions."] else [])
    ++ (if price ≤ 0 then
      ["Price must be greater than 0."] else [])
    ++ (if max_cac_for_target.isnanB || max_cac_for_target.ltZeroB then
      ["Target CAC calculation invalid (check LTV target ratio and inputs)."] else [])
  { payment_fees := payment_fees
    labor_cost := labor_cost
    overhead_cost := overhead_cost
    variable_costs := variable_costs
    gross_profit := gross_profit
    contribution_margin := contribution_margin
    expected_gp_after_refunds := expected_gp_after_refunds
    buffered_gp := buffered_gp
    expected_orders := expected_orders
    ltv := ltv
    breakeven_cac := breakeven_cac
    max_cac_for_target := max_cac_for_target
    cac_assumed := cac_assumed
    ltv_cac_ratio := ltv_cac_ratio
    warnings := warnings }

end App

/-! ## `execution/scenario_engine.py` — the dataclass-based variant -/

namespace Engine

/-- `ScenarioInputs` from `scenario_engine.py`. -/
structure ScenarioInputs where
  aov : ℚ
  cogs : ℚ
  packaging : ℚ
  shipping_cost : ℚ
  fee_rate : ℚ
  fee_fixed : ℚ
  labor_minutes_per_order : ℚ := 0
  labor_rate_per_hour : ℚ := 0
deriving DecidableEq

/-- `clamp_nonnegative`: raises `ValueError(f"{name} must be >= 0")` for a
negative value, otherwise returns it. -/
def clamp_nonnegative (x : ℚ) (name : String) : Except String ℚ :=
  if x < 0 then .error (name ++ " must be >= 0") else .ok x

/-- `clamp_01`: raises `ValueError(f"{name} must be between 0 and 1")`
outside [0,1], otherwise returns the value. -/
def clamp_01 (x : ℚ) (name : String) : Except String ℚ :=
  if x < 0 ∨ x > 1 then .error (name ++ " must be between 0 and 1") else .ok x

/-- `safe_div` from `scenario_engine.py`: `0.0 if d == 0 else (n / d)` —
note this variant returns the number 0, not a sentinel. -/
def safe_div (n d : ℚ) : ℚ :=
  if d = 0 then 0 else n / d

/-- `validate_inputs` from `scenario_engine.py` (fails loudly on the
first offending field, in source order). -/
def validate_inputs (i : ScenarioInputs) : Except String Unit := do
  _ ← clamp_nonnegative i.aov "aov"
  _ ← clamp_nonnegative i.cogs "cogs"
  _ ← clamp_nonnegative i.packaging "packaging"
  _ ← clamp_nonnegative i.shipping_cost "shipping_cost"
  _ ← clamp_01 i.fee_rate "fee_rate"
  _ ← clamp_nonnegative i.fee_fixed "fee_fixed"
  _ ← clamp_nonnegative i.labor_minutes_per_order "labor_minutes_per_order"
  _ ← clamp_nonnegative i.labor_rate_per_hour "labor_rate_per_hour"
  pure ()

/-- The dict returned by `compute_unit_economics`. -/
structure UnitEconomics where
  inputs : ScenarioInputs
  payment_fees : ℚ
  labor_cost : ℚ
  total_variable_costs : ℚ
  gross_profit : ℚ
  contribution_margin : ℚ
deriving DecidableEq

/-- `compute_unit_economics` from `scenario_engine.py`.  Its
`contribution_margin` goes through this file's zero-returning
`safe_div`, matching the source docstring "(0 if aov == 0)". -/
def compute_unit_economics (i : ScenarioInputs) : Except String UnitEconomics := do
  _ ← validate_inputs i
  let payment_fees := i.aov * i.fee_rate + i.fee_fixed
  let labor_cost := (i.labor_minutes_per_order / 60) * i.labor_rate_per_hour
  let total_variable_costs := i.cogs + i.packaging + i.shipping_cost + payment_fees + labor_cost
  let gross_profit := i.aov - total_variable_costs
  let contribution_margin := safe_div gross_profit i.aov
  pure
    { inputs := i
      payment_fees := payment_fees
      labor_cost := labor_cost
      total_variable_costs := total_variable_costs
      gross_profit := gross_profit
      contribution_margin := contribution_margin }

/-- `compute_ltv_simple` from `scenario_engine.py`: the superseded LTV
variant that collapses a non-positive gross profit to an LTV of 0. -/
def compute_ltv_simple (gross_profit_per_order orders_per_customer : ℚ) : Except String ℚ := do
  _ ← clamp_nonnegative orders_per_customer "orders_per_customer"
  if gross_profit_per_order ≤ 0 then pure 0
  else if orders_per_customer ≤ 0 then pure 0
  else pure (gross_profit_per_order * orders_per_customer)

/-- `max_cac_for_target_ratio` from `scenario_engine.py`: validates
`ltv ≥ 0`, raises `ValueError` when `target_ratio ≤ 0`, returns 0 for
`ltv ≤ 0` and `ltv / target_ratio` otherwise. -/
def max_cac_for_target_ratio (ltv : ℚ) (target_ratio : ℚ := 12) : Except String ℚ := do
  _ ← clamp_nonnegative ltv "ltv"
  if target_ratio ≤ 0 then .error "target_ratio must be > 0"
  else if ltv ≤ 0 then pure 0
  else pure (ltv / target_ratio)

end Engine

/-! ## `execution/directive_loader.py` — the directive catalogue loader -/

namespace Loader

open WhiteOwl

/-- `Directive` from `directive_loader.py`. -/
structure Directive where
  name : String
  filename : String
  content : String
deriving DecidableEq

/-- The two distinct exception types `load_directive` can raise:
`FileNotFoundError` for an absent file and `ValueError` for a file whose
stripped content is empty. -/
inductive LoadError where
  | fileNotFound (msg : String)
  | valueError (msg : String)
deriving DecidableEq

/-- `load_directive` from `directive_loader.py`.  The directory is
modelled as a partial map from filename to raw file text (`none` =
absent file). -/
def load_directive (dir : String → Option String) (filename : String) :
    Except LoadError Directive :=
  match dir filename with
  | none => .error (.fileNotFound ("Directive file not found: " ++ filename))
  | some raw =>
    let content := pyStrip raw
    if content = "" then
      .error (.valueError ("Directive \x27" ++ filename ++ "\x27 is empty."))
    else
      .ok { name := replaceMd filename, filename := filename, content := content }

end Loader

/-! ## `execution/decision_engine.py` — the pure (non-interactive) router -/

namespace DecEng

open WhiteOwl

/-- `RoutingDecision` from `decision_engine.py` (the rationale dict is an
insertion-ordered association list). -/
structure RoutingDecision where
  user_intent : String
  directives : List String
  rationale : List (String × String)
deriving DecidableEq

/-- `normalize` from `decision_engine.py`: `text.lower().strip()`. -/
def normalize (text : String) : String := pyStrip (pyLower text)

/-- Keyword group of the unit-economics / viability branch. -/
def UNIT_ECON_KWS : List String :=
  ["unit economics", "margin", "profit", "viable", "make money", "pricing viability"]

/-- Keyword group of the pricing / CAC / LTV branch. -/
def PRICING_KWS : List String :=
  ["pricing", "price", "cac", "ltv", "12:1", "acquisition", "customer acquisition",
   "how much can i spend"]

/-- Keyword group of the scaling / capacity branch. -/
def SCALING_KWS : List String :=
  ["scale", "capacity", "throughput", "bottleneck", "hire", "volume"]

/-- Keyword group of the product-mix branch. -/
def PRODUCT_MIX_KWS : List String :=
  ["product mix", "bundle", "variants", "which product", "best product"]

/-- Keyword group of the customer / acquisition quality branch. -/
def CUSTOMER_KWS : List String :=
  ["customer quality", "churn", "refund", "retention", "lead quality"]

/-- `decision_engine` from `decision_engine.py`: accumulates directives
branch by branch and raises `ValueError` when none matched. -/
def decision_engine (user_intent : String) : Except String RoutingDecision :=
  let intent := normalize user_intent
  let acc0 : List String × List (String × String) := ([], [])
  let acc1 :=
    if UNIT_ECON_KWS.any (fun k => isSub k intent) then
      (acc0.1 ++ ["diagnose_unit_economics"],
       acc0.2 ++ [("diagnose_unit_economics",
         "User intent references profitability or unit economics.")])
    else acc0
  let acc2 :=
    if PRICING_KWS.any (fun k => isSub k intent) then
      let accA :=
        if "define_ltv_model" ∈ acc1.1 then acc1
        else (acc1.1 ++ ["define_ltv_model"],
              acc1.2 ++ [("define_ltv_model",
                "Pricing/CAC analysis requires LTV definition first.")])
      let accB :=
        if "define_cac_model" ∈ accA.1 then accA
        else (accA.1 ++ ["define_cac_model"],
              accA.2 ++ [("define_cac_model",
                "CAC guardrails must be defined after LTV.")])
      (accB.1 ++ ["diagnose_pricing"],
       accB.2 ++ [("diagnose_pricing",
         "User intent references pricing or CAC limits.")])
    else acc1
  let acc3 :=
    if SCALING_KWS.any (fun k => isSub k intent) then
      (acc2.1 ++ ["diagnose_capacity_and_throughput", "diagnose_scalability",
                  "optimize_scaling_strategy"],
       acc2.2 ++ [("diagnose_capacity_and_throughput",
           "User intent references production capacity or throughput."),
         ("diagnose_scalability", "Scaling implications must be evaluated."),
         ("optimize_scaling_strategy", "Optimization required to scale safely.")])
    else acc2
  let acc4 :=
    if PRODUCT_MIX_KWS.any (fun k => isSub k intent) then
      (acc3.1 ++ ["optimize_product_mix"],
       acc3.2 ++ [("optimize_product_mix",
         "User intent references multiple products or prioritization.")])
    else acc3
  let acc5 :=
    if CUSTOMER_KWS.any (fun k => isSub k intent) then
      (acc4.1 ++ ["diagnose_customer_quality", "diagnose_acquisition_quality"],
       acc4.2 ++ [("diagnose_customer_quality",
           "User intent references retention or customer behavior."),
         ("diagnose_acquisition_quality",
           "Acquisition quality impacts CAC and LTV.")])
    else acc4
  if acc5.1 = [] then
    .error "Unable to route intent to directives. Clarify the business question."
  else
    .ok { user_intent := user_intent, directives := acc5.1, rationale := acc5.2 }

end DecEng

/-! ## `execution/decision_router_engine.py` — the gated keyword router -/

namespace Router

open WhiteOwl

/-- `REQUIRED_DEFINITION_FILES` from `decision_router_engine.py`. -/
def REQUIRED_DEFINITION_FILES : List String :=
  ["define_ltv_model.md", "define_cac_model.md"]

/-- `RoutedDecision` from `decision_router_engine.py`. -/
structure RoutedDecision where
  decision_type : String
  pain_signal : String
  time_horizon : String
  directives : List String
  why : String
  required_inputs : List String
  stop_conditions : List String
  notes : List String
deriving DecidableEq

/-- `DECISION_TYPES` from `decision_router_engine.py`. -/
def DECISION_TYPES : List String :=
  ["Pricing", "Acquisition", "Product / Offer", "Capacity / Operations",
   "Customer Quality", "Scaling / Growth", "Financial Viability", "Strategic Direction"]

/-- `KEYWORDS_DECISION_TYPE` from `decision_router_engine.py` — the dict
as an insertion-ordered association list. -/
def KEYWORDS_DECISION_TYPE : List (String × List String) :=
  [("Pricing",
    ["price", "pricing", "raise", "lower", "discount", "charge", "rate", "margin",
     "underpriced", "close rate", "conversion rate", "upsell", "offer price"]),
   ("Acquisition",
    ["ads", "advertising", "facebook", "meta", "instagram", "google", "seo", "lead",
     "leads", "cac", "traffic", "funnel", "email list", "outreach", "partnership",
     "referral", "affiliate", "cold", "dm", "inbound", "conversion", "bookings"]),
   ("Product / Offer",
    ["product", "sku", "offer", "bundle", "package", "line", "variant", "custom",
     "personalized", "add", "remove", "launch", "new product", "catalog", "collection"]),
   ("Capacity / Operations",
    ["overwhelmed", "overloaded", "behind", "late", "lead time", "throughput",
     "capacity", "bottleneck", "schedule", "calendar", "production", "shop",
     "machining", "cnc", "laser", "finishing", "assembly", "shipping", "fulfillment"]),
   ("Customer Quality",
    ["bad customers", "difficult", "refund", "chargeback", "complaint", "revision",
     "scope creep", "nitpicky", "custom creep", "picky", "problem customers", "returns"]),
   ("Scaling / Growth",
    ["scale", "scaling", "hire", "hiring", "expand", "growth", "second location",
     "add capacity", "automation", "systemize", "delegat", "replicate", "volume"]),
   ("Financial Viability",
    ["profit", "loss", "cash", "cashflow", "payback", "ltv", "cogs", "gross margin",
     "net margin", "break even", "unit economics"]),
   ("Strategic Direction",
    ["strategy", "direction", "focus", "what should i do", "next step", "prioritize",
     "roadmap", "plan", "positioning", "brand"])]

/-- `KEYWORDS_TIME_HORIZON` from `decision_router_engine.py`. -/
def KEYWORDS_TIME_HORIZON : List (String × List String) :=
  [("Immediate (days)",
    ["today", "tomorrow", "this week", "urgent", "asap", "now", "right away"]),
   ("Short (weeks)",
    ["next week", "this month", "few weeks", "2 weeks", "3 weeks", "4 weeks", "in a month"]),
   ("Medium (months)",
    ["quarter", "q1", "q2", "q3", "q4", "90 days", "this year", "next quarter",
     "in 6 months", "in months"])]

/-- `PAIN_SIGNALS` from `decision_router_engine.py`. -/
def PAIN_SIGNALS : List (String × List String) :=
  [("Sales are slow",
    ["sales are slow", "not selling", "no sales", "slow sales", "demand is low",
     "not enough orders"]),
   ("Margins feel thin",
    ["thin margins", "margins are thin", "not enough profit", "profit is low",
     "gross margin"]),
   ("I’m overloaded",
    ["overwhelmed", "too busy", "behind", "late", "can\x27t keep up", "overloaded",
     "burnout"]),
   ("Customers are difficult",
    ["difficult customers", "refund", "chargeback", "complaint", "scope creep",
     "revisions"]),
   ("Growth feels risky",
    ["risky", "afraid to scale", "scaling worries", "can\x27t hire", "cash risk",
     "too fast"]),
   ("Not sure what to do next",
    ["what should i do", "next step", "where do i start", "not sure", "what now",
     "prioritize"])]

/-- The keyword-hit count of one decision-type category: how many of the
category's keywords occur as substrings of the (lower-cased) question. -/
def scoreOf (q : String) (dtype : String) : ℕ :=
  ((KEYWORDS_DECISION_TYPE.lookup dtype).getD []).countP (fun kw => isSub kw q)

/-- `max(scores.values())` over the eight decision-type categories. -/
def bestScore (q : String) : ℕ :=
  (DECISION_TYPES.map (scoreOf q)).foldr max 0

/-- The tie-break priority list inside `classify_decision_type`. -/
def PRIORITY : List String :=
  ["Financial Viability", "Capacity / Operations", "Customer Quality", "Pricing",
   "Product / Offer", "Acquisition", "Scaling / Growth", "Strategic Direction"]

/-- The source's local `tied`: the categories whose score equals the
best score. -/
def tiedAtBest (q : String) : List String :=
  DECISION_TYPES.filter (fun k => scoreOf q k == bestScore q)

/-- `classify_decision_type` from `decision_router_engine.py`: count
keyword hits per category, return `none` when every score is 0,
otherwise the first category of the priority list among those tied at
the best score (the source's trailing `return tied[0]` is unreachable
because the priority list contains all eight categories). -/
def classify_decision_type (question : String) : Option String :=
  let q := pyLower question
  if bestScore q = 0 then none
  else
    match PRIORITY.find? (fun p => (tiedAtBest q).contains p) with
    | some p => some p
    | none => (tiedAtBest q).head?

/-- `classify_time_horizon` from `decision_router_engine.py`: first
matching keyword list wins, default `"Short (weeks)"`. -/
def classify_time_horizon (question : String) : String :=
  let q := pyLower question
  match KEYWORDS_TIME_HORIZON.find? (fun pr => pr.2.any (fun kw => isSub kw q)) with
  | some pr => pr.1
  | none => "Short (weeks)"

/-- `classify_pain_signal` from `decision_router_engine.py`: first
matching keyword list wins, default `"Not sure what to do next"`. -/
def classify_pain_signal (question : String) : String :=
  let q := pyLower question
  match PAIN_SIGNALS.find? (fun pr => pr.2.any (fun kw => isSub kw q)) with
  | some pr => pr.1
  | none => "Not sure what to do next"

/-- `needs_one_clarifying_question` from `decision_router_engine.py`. -/
def needs_one_clarifying_question (decision_type : Option String) : Bool :=
  decision_type.isNone

/-- The answer menu of `ask_one_question`. -/
def ASK_MAPPING : List (String × String) :=
  [("1", "Pricing"), ("2", "Acquisition"), ("3", "Product / Offer"),
   ("4", "Capacity / Operations"), ("5", "Customer Quality"),
   ("6", "Scaling / Growth"), ("7", "Financial Viability"),
   ("8", "Strategic Direction")]

/-- `ask_one_question` from `decision_router_engine.py`, as a pure
function of the one line read from the interactive surface:
`mapping.get(input().strip(), "Strategic Direction")`. -/
def ask_one_question (raw : String) : String :=
  (ASK_MAPPING.lookup (pyStrip raw)).getD "Strategic Direction"

/-- `enforce_definitions_gate` from `decision_router_engine.py`.  The
directive catalogue is modelled as the set of present filenames,
`cat : String → Bool`. -/
def enforce_definitions_gate (cat : String → Bool) : Bool × List String :=
  let missing := REQUIRED_DEFINITION_FILES.filter (fun fname => !(cat fname))
  (missing.isEmpty, missing)

/-- One hard-coded routing playbook (a directive sequence with its
rationale, required inputs and stop conditions). -/
structure Playbook where
  directives : List String
  why : String
  required_inputs : List String
  stop_conditions : List String

/-- The pain-signal / decision-type branch cascade of `route` (source
lines 391–619): six pain-signal playbooks override eight decision-type
playbooks, with Strategic Direction as the final `else`. -/
def select_playbook (pain_signal decision_type : String) : Playbook :=
  if pain_signal = "Sales are slow" then
    { directives := ["diagnose_customer_quality.md", "diagnose_pricing.md",
        "diagnose_acquisition_quality.md"]
      why := "Sales slowness can be caused by wrong customers, wrong price/value match, or weak acquisition quality. This sequence prevents discounting or ad-spend mistakes."
      required_inputs := ["Last 10–30 quotes/orders (or best available)",
        "Your current prices + what customers actually ask for",
        "Where leads are coming from (even if small sample)",
        "Any close-rate or inquiry-to-order notes you have"]
      stop_conditions := ["Do not discount or increase ad spend until customer quality + pricing are diagnosed.",
        "If acquisition quality shows poor-fit leads, fix targeting before scaling."] }
  else if pain_signal = "Margins feel thin" then
    { directives := ["diagnose_unit_economics.md", "diagnose_customer_quality.md",
        "diagnose_pricing.md", "optimize_product_mix.md"]
      why := "Thin margins require verifying unit economics first, then checking if customer behavior and pricing are the driver, then correcting product mix to protect throughput and profit."
      required_inputs := ["A sample order: selling price + materials + labor time + packaging + shipping",
        "Any rework/revision rates", "Custom requests frequency",
        "Which products feel most profitable vs most painful"]
      stop_conditions := ["Do not chase volume until unit economics are understood and corrected.",
        "If customer quality is misaligned, fix offer boundaries before pricing changes."] }
  else if pain_signal = "I’m overloaded" then
    { directives := ["diagnose_capacity_and_throughput.md", "optimize_product_mix.md",
        "diagnose_pricing.md"]
      why := "Overload is usually a bottleneck problem (not a motivation problem). Capacity must be clarified first, then product mix, then pricing to throttle demand."
      required_inputs := ["Your production steps (design → cut → finish → assemble → pack → ship)",
        "Typical labor minutes per product type", "Current backlog + lead times",
        "Which step is consistently the bottleneck"]
      stop_conditions := ["Do not add SKUs or run promotions while overloaded.",
        "If bottleneck is founder time, constrain offers until relieved."] }
  else if pain_signal = "Customers are difficult" then
    { directives := ["diagnose_customer_quality.md", "optimize_product_mix.md",
        "diagnose_pricing.md"]
      why := "Customer friction is usually caused by boundaries (offer design), mismatch, or pricing that invites the wrong buyer. Fix classification first, then mix, then price."
      required_inputs := ["Examples of difficult interactions (what triggered friction)",
        "Revision count by order type", "Refund/discount history (if any)",
        "Current promise/expectations customers buy under"]
      stop_conditions := ["Do not accept more customization until customer segmentation is clarified.",
        "If revisions dominate, tighten spec + boundaries before scaling acquisition."] }
  else if pain_signal = "Growth feels risky" then
    { directives := ["diagnose_unit_economics.md", "diagnose_capacity_and_throughput.md",
        "diagnose_scalability.md", "optimize_scaling_strategy.md"]
      why := "If growth feels risky, you need proof that the model survives scale. Economics + capacity + scalability gates prevent expensive mistakes."
      required_inputs := ["Unit economics per offer", "Capacity constraints and bottlenecks",
        "Which scaling path you’re considering (ads, wholesale, hiring, etc.)"]
      stop_conditions := ["If diagnose_scalability returns Do Not Scale, stop scaling actions and stabilize first."] }
  else if decision_type = "Financial Viability" then
    { directives := ["diagnose_unit_economics.md"]
      why := "You’re asking a profit/cashflow viability question. Unit economics is the fastest truth source."
      required_inputs := ["One representative product order (price + costs + labor time)",
        "Your best estimate CAC per channel (even if early)"]
      stop_conditions := ["If unit economics FAIL, do not scale acquisition or add complexity."] }
  else if decision_type = "Capacity / Operations" then
    { directives := ["diagnose_capacity_and_throughput.md", "optimize_product_mix.md"]
      why := "Operations decisions must start with the bottleneck and throughput reality."
      required_inputs := ["Workflow steps + time per step",
        "Current backlog, lead times, and work-in-progress limits"]
      stop_conditions := ["If a single bottleneck dominates, optimize that before adding demand."] }
  else if decision_type = "Customer Quality" then
    { directives := ["diagnose_customer_quality.md"]
      why := "Customer quality must be classified before pricing/acquisition changes."
      required_inputs := ["Last 10–30 customer interactions or orders", "Common friction points"]
      stop_conditions := ["If majority is misaligned/high-friction, tighten offer boundaries before scaling."] }
  else if decision_type = "Pricing" then
    { directives := ["diagnose_customer_quality.md", "diagnose_capacity_and_throughput.md",
        "diagnose_pricing.md"]
      why := "Pricing changes require customer-fit clarity and capacity reality first."
      required_inputs := ["Current price list",
        "Any close rate (even rough) or inquiry-to-order ratio",
        "Lead time/backlog snapshot"]
      stop_conditions := ["Do not discount by default; fix fit and sales motion first."] }
  else if decision_type = "Acquisition" then
    { directives := ["diagnose_acquisition_quality.md"]
      why := "Acquisition decisions must verify lead quality and CAC discipline before scaling spend."
      required_inputs := ["Planned channels (organic, paid, referrals)",
        "Budget constraints (even rough)", "Target customer description"]
      stop_conditions := ["Do not scale spend unless CAC ≤ LTV / 12 (12:1+ LTV:CAC)."] }
  else if decision_type = "Product / Offer" then
    { directives := ["diagnose_capacity_and_throughput.md", "optimize_product_mix.md"]
      why := "Offer changes must respect bottlenecks and throughput; otherwise you manufacture overload."
      required_inputs := ["Current SKUs/offers and rough time/cost per one",
        "Which offers you want to add/remove"]
      stop_conditions := ["If the bottleneck step is overloaded, do not add offers that hit it harder."] }
  else if decision_type = "Scaling / Growth" then
    { directives := ["diagnose_scalability.md", "optimize_scaling_strategy.md"]
      why := "Growth decisions require scalability diagnosis before choosing a scaling strategy."
      required_inputs := ["Your intended growth path (ads, wholesale, hiring, licensing, etc.)",
        "Unit economics snapshot", "Capacity bottleneck snapshot"]
      stop_conditions := ["If diagnose_scalability returns Do Not Scale, stop and stabilize first."] }
  else
    { directives := ["diagnose_capacity_and_throughput.md", "diagnose_customer_quality.md",
        "diagnose_pricing.md", "optimize_product_mix.md", "diagnose_acquisition_quality.md",
        "diagnose_scalability.md", "optimize_scaling_strategy.md"]
      why := "When direction is unclear, we run the stabilization stack in the safest order, then select a scaling strategy only after diagnostics pass."
      required_inputs := ["What you sell (or plan to sell) + price points",
        "Your best estimate of costs and time per product", "Who you want to serve",
        "Any early lead sources or interest signals"]
      stop_conditions := ["If any diagnostic returns FAIL/Do Not Scale, pause downstream directives and fix upstream constraints."] }

/-- The two universal notes appended to every successfully routed
decision. -/
def UNIVERSAL_NOTES : List String :=
  ["Conservative routing is intentional: premium craft businesses win by fit + margins + throughput, not volume.",
   "If you are pre-launch, substitute \x27best estimates\x27 and update after first 10–20 orders."]

/-- `route` from `decision_router_engine.py`.  The directive catalogue is
the predicate `cat` (filename present?); the interactive surface is the
stream of stdin lines `stream`; the second component of the result is
the number of lines `route` consumed from it (the number of clarifying
questions asked). -/
def route (question : String) (cat : String → Bool) (stream : ℕ → String) :
    RoutedDecision × ℕ :=
  let q_norm := normalize_whitespace question
  let dt0 := classify_decision_type q_norm
  let pain_signal := classify_pain_signal q_norm
  let time_horizon := classify_time_horizon q_norm
  let dtReads : String × ℕ :=
    match dt0 with
    | none => (ask_one_question (stream 0), 1)
    | some d => (d, 0)
  let decision_type := dtReads.1
  let reads := dtReads.2
  let gate := enforce_definitions_gate cat
  if gate.1 = false then
    ({ decision_type := decision_type
       pain_signal := pain_signal
       time_horizon := time_horizon
       directives := ["define_ltv_model.md", "define_cac_model.md"]
       why := "Definitions Gate FAIL: LTV/CAC definitions are missing or incomplete. No other routing is allowed until definitions are established."
       required_inputs := ["Your primary offer(s) and pricing",
         "Order-to-delivery workflow summary",
         "COGS assumptions (materials, labor, packaging, shipping)",
         "Acquisition channels you plan to use (paid, organic, referrals)"]
       stop_conditions :=
         ["Missing required definition file(s): " ++ String.intercalate ", " gate.2,
          "Do not change pricing, marketing, or product mix until LTV/CAC are defined."]
       notes := ["This is a hard stop by design. It protects your 12:1+ LTV:CAC goal."] },
     reads)
  else
    let pb := select_playbook pain_signal decision_type
    ({ decision_type := decision_type
       pain_signal := pain_signal
       time_horizon := time_horizon
       directives := pb.directives
       why := pb.why
       required_inputs := pb.required_inputs
       stop_conditions := pb.stop_conditions
       notes := UNIVERSAL_NOTES },
     reads)

end Router

/-! ## Shared helper lemmas -/

/-- `clamp01` is the identity on [0,1]. -/
theorem clamp01_of_mem (x : ℚ) (h0 : 0 ≤ x) (h1 : x ≤ 1) : App.clamp01 x = x := by
  simp [App.clamp01, min_eq_right h1, max_eq_right h0]

/-- A non-negative argument passes `clamp_nonnegative` unchanged. -/
theorem clamp_nonnegative_ok (x : ℚ) (name : String) (h : 0 ≤ x) :
    Engine.clamp_nonnegative x name = .ok x := by
  simp [Engine.clamp_nonnegative, not_lt.mpr h]

/-- Reduction of the `Except` monad's bind on a success value (the shape
every `do` block of the embedding desugars to). -/
theorem except_bind_ok {ε α β : Type} (a : α) (f : α → Except ε β) :
    (Except.ok a : Except ε α) >>= f = f a := rfl

/-! ## Claim C5 — buffered gross profit -/

/-- Claim C5: for all refund and holdback rates in [0,1] and any gross
profit, `buffered_gp = gross_profit * (1 - refunds_rate) *
(1 - holdback_rate)`, refund haircut first, holdback second; if either
rate equals 1 the buffered gross profit is exactly 0 regardless of the
sign of the gross profit. -/
theorem c5_buffered_gp (i : App.Inputs)
    (hr0 : 0 ≤ i.refunds_rate) (hr1 : i.refunds_rate ≤ 1)
    (hh0 : 0 ≤ i.gross_margin_holdback_rate) (hh1 : i.gross_margin_holdback_rate ≤ 1) :
    (App.compute i).buffered_gp
      = (App.compute i).gross_profit * (1 - i.refunds_rate) * (1 - i.gross_margin_holdback_rate)
    ∧ ((i.refunds_rate = 1 ∨ i.gross_margin_holdback_rate = 1) →
        (App.compute i).buffered_gp = 0) := by
  have h1 : App.clamp01 i.refunds_rate = i.refunds_rate := clamp01_of_mem _ hr0 hr1
  have h2 : App.clamp01 i.gross_margin_holdback_rate = i.gross_margin_holdback_rate :=
    clamp01_of_mem _ hh0 hh1
  have hbuf : (App.compute i).buffered_gp
      = (App.compute i).gross_profit * (1 - i.refunds_rate)
        * (1 - i.gross_margin_holdback_rate) := by
    simp only [App.compute, h1, h2]
  refine ⟨hbuf, ?_⟩
  rintro (h | h) <;> rw [hbuf, h] <;> ring

/-- Sample input with a negative gross profit and a refunds rate of 1. -/
def c5Inputs : App.Inputs :=
  { price := 100, cogs_materials := 150, packaging := 0, shipping := 0,
    payment_fee_rate := 0, payment_fixed_fee := 0, labor_minutes := 0, labor_rate := 0,
    overhead_rate := 0, horizon_months := 12, repeat_orders_per_year := 2,
    gross_margin_holdback_rate := 0, refunds_rate := 1, ltv_to_cac_target := 12,
    cac_assumed := 0 }

/-- Witness for C5: a negative gross profit with a refunds rate of 1
still yields a buffered gross profit of exactly 0. -/
theorem c5_buffered_gp_witness : (App.compute c5Inputs).buffered_gp = 0 :=
  (c5_buffered_gp c5Inputs (by norm_num [c5Inputs]) (by norm_num [c5Inputs])
    (by norm_num [c5Inputs]) (by norm_num [c5Inputs])).2 (Or.inl rfl)

/-! ## Claim C4 — the committed (non-flooring) LTV model -/

/-- Claim C4: in the committed model `expected_orders =
max(0, (repeat_orders_per_year / 12) * horizon_months)` and
`LTV = buffered_gp * expected_orders` with the gross-profit term not
floored at 0 (a negative buffered gross profit and positive expected
orders force a negative LTV), while the superseded variant
`compute_ltv_simple` floors a non-positive gross profit to an LTV of 0. -/
theorem c4_ltv_model (i : App.Inputs) (gp n : ℚ) (hgp : gp ≤ 0) (hn : 0 ≤ n) :
    (App.compute i).expected_orders
        = max 0 ((i.repeat_orders_per_year / 12) * (i.horizon_months : ℚ))
    ∧ (App.compute i).ltv = (App.compute i).buffered_gp * (App.compute i).expected_orders
    ∧ ((App.compute i).buffered_gp < 0 → 0 < (App.compute i).expected_orders →
        (App.compute i).ltv < 0)
    ∧ Engine.compute_ltv_simple gp n = .ok 0 := by
  refine ⟨rfl, rfl, ?_, ?_⟩
  · intro hb he
    simp only [App.compute] at hb he ⊢
    exact mul_neg_of_neg_of_pos hb he
  · simp [Engine.compute_ltv_simple, clamp_nonnegative_ok n "orders_per_customer" hn, hgp,
      except_bind_ok]

/-- Sample input whose buffered gross profit is negative (-10) with one
expected order over the horizon. -/
def c4Inputs : App.Inputs :=
  { price := 0, cogs_materials := 10, packaging := 0, shipping := 0,
    payment_fee_rate := 0, payment_fixed_fee := 0, labor_minutes := 0, labor_rate := 0,
    overhead_rate := 0, horizon_months := 1, repeat_orders_per_year := 12,
    gross_margin_holdback_rate := 0, refunds_rate := 0, ltv_to_cac_target := 12,
    cac_assumed := 0 }

/-- Witness for C4: on `c4Inputs` the buffered gross profit is negative,
expected orders are positive, and the LTV comes out negative (not
floored), while `compute_ltv_simple` collapses a negative gross profit
to 0. -/
theorem c4_ltv_model_witness :
    (App.compute c4Inputs).buffered_gp < 0 ∧ 0 < (App.compute c4Inputs).expected_orders
    ∧ (App.compute c4Inputs).ltv < 0
    ∧ Engine.compute_ltv_simple (-5) 3 = .ok 0 := by
  have h := c4_ltv_model c4Inputs (-5) 3 (by norm_num) (by norm_num)
  have hb : (App.compute c4Inputs).buffered_gp < 0 := by
    norm_num [App.compute, App.clamp01, c4Inputs]
  have he : 0 < (App.compute c4Inputs).expected_orders := by
    norm_num [App.compute, App.clamp01, c4Inputs]
  exact ⟨hb, he, h.2.2.1 hb he, h.2.2.2⟩

/-! ## Claim C6 — variable costs and the worked example -/

/-- The worked example of the specification (price 249, materials 65,
packaging 6, shipping 18, fee rate 0.029, fixed fee 0.30, 120 labor
minutes at 35/hr, overhead 20/hr). -/
def c6Inputs : App.Inputs :=
  { price := 249, cogs_materials := 65, packaging := 6, shipping := 18,
    payment_fee_rate := 29/1000, payment_fixed_fee := 3/10, labor_minutes := 120,
    labor_rate := 35, overhead_rate := 20, horizon_months := 12,
    repeat_orders_per_year := 16/10, gross_margin_holdback_rate := 1/10,
    refunds_rate := 3/100, ltv_to_cac_target := 12, cac_assumed := 35 }

/-- Counterexample to C6 as stated: on the worked example the computed
`payment_fees` equals 7.521 (which is 249·0.029 + 0.30 = 7.221 + 0.30),
not "7.521 + 0.30" = 7.821 as the claim's decomposition asserts. -/
theorem c6_counterexample :
    (App.compute c6Inputs).payment_fees = 7521/1000
    ∧ (7521/1000 : ℚ) ≠ 7521/1000 + 3/10 := by
  constructor
  · norm_num [App.compute, App.clamp01, c6Inputs, min_def, max_def]
  · norm_num

/-- Amended C6: `variable_costs` is exactly the sum of its six
components for all non-negative inputs, and on the worked example
`payment_fees = 7.521` (= 249·0.029 + 0.30), `labor_cost = 70`,
`overhead_cost = 40`, `variable_costs = 206.521`, and
`gross_profit = 42.479`. -/
theorem c6_variable_costs (i : App.Inputs)
    (h1 : 0 ≤ i.price) (h2 : 0 ≤ i.cogs_materials) (h3 : 0 ≤ i.packaging)
    (h4 : 0 ≤ i.shipping) (h5 : 0 ≤ i.payment_fee_rate) (h6 : 0 ≤ i.payment_fixed_fee)
    (h7 : 0 ≤ i.labor_minutes) (h8 : 0 ≤ i.labor_rate) (h9 : 0 ≤ i.overhead_rate) :
    (App.compute i).variable_costs
        = i.cogs_materials + i.packaging + i.shipping + (App.compute i).payment_fees
          + (App.compute i).labor_cost + (App.compute i).overhead_cost
    ∧ (App.compute i).gross_profit = i.price - (App.compute i).variable_costs
    ∧ (App.compute c6Inputs).payment_fees = 7521/1000
    ∧ (App.compute c6Inputs).labor_cost = 70
    ∧ (App.compute c6Inputs).overhead_cost = 40
    ∧ (App.compute c6Inputs).variable_costs = 206521/1000
    ∧ (App.compute c6Inputs).gross_profit = 42479/1000 := by
  refine ⟨rfl, rfl, ?_, ?_, ?_, ?_, ?_⟩ <;>
    norm_num [App.compute, App.clamp01, c6Inputs, min_def, max_def]

/-- Witness for C6 (amended): the component-sum identity and the worked
example's gross profit, instantiated at the worked example itself. -/
theorem c6_variable_costs_witness :
    (App.compute c6Inputs).variable_costs
        = c6Inputs.cogs_materials + c6Inputs.packaging + c6Inputs.shipping
          + (App.compute c6Inputs).payment_fees + (App.compute c6Inputs).labor_cost
          + (App.compute c6Inputs).overhead_cost
    ∧ (App.compute c6Inputs).gross_profit = 42479/1000 := by
  have h := c6_variable_costs c6Inputs (by norm_num [c6Inputs]) (by norm_num [c6Inputs])
    (by norm_num [c6Inputs]) (by norm_num [c6Inputs]) (by norm_num [c6Inputs])
    (by norm_num [c6Inputs]) (by norm_num [c6Inputs]) (by norm_num [c6Inputs])
    (by norm_num [c6Inputs])
  exact ⟨h.1, h.2.2.2.2.2.2⟩

/-! ## Claim C7 — the max-CAC guardrail -/

/-- Counterexample to C7 as stated: the cited
`scenario_engine.max_cac_for_target_ratio` does NOT return an
"undefined" sentinel when a caller passes `target_ratio = 0` — it raises
`ValueError("target_ratio must be > 0")`, an exception. -/
theorem c7_counterexample :
    Engine.max_cac_for_target_ratio 100 0 = .error "target_ratio must be > 0" := by
  norm_num [Engine.max_cac_for_target_ratio, clamp_nonnegative_ok 100 "ltv" (by norm_num),
    except_bind_ok]

/-- Amended C7: in `app.py`'s `compute`, `max_cac_for_target` is the NaN
sentinel exactly when `target_ratio = 0`, equals `LTV / target_ratio`
otherwise, and is the valid finite value 0 (not the sentinel) when
`LTV = 0` with a positive target; the `scenario_engine` variant instead
raises `ValueError` for `target_ratio ≤ 0`, returns 0 for `ltv = 0` and
`ltv / target_ratio` for positive `ltv` and target. -/
theorem c7_max_cac (i : App.Inputs) (l t tr : ℚ) (hl : 0 ≤ l) (ht : t ≤ 0) (htr : 0 < tr) :
    (i.ltv_to_cac_target = 0 → (App.compute i).max_cac_for_target = App.PyFloat.nan)
    ∧ (i.ltv_to_cac_target ≠ 0 →
        (App.compute i).max_cac_for_target
          = App.PyFloat.val ((App.compute i).ltv / i.ltv_to_cac_target))
    ∧ ((App.compute i).ltv = 0 → 0 < i.ltv_to_cac_target →
        (App.compute i).max_cac_for_target = App.PyFloat.val 0)
    ∧ Engine.max_cac_for_target_ratio l t = .error "target_ratio must be > 0"
    ∧ Engine.max_cac_for_target_ratio 0 tr = .ok 0
    ∧ (0 < l → Engine.max_cac_for_target_ratio l tr = .ok (l / tr)) := by
  refine ⟨?_, ?_, ?_, ?_, ?_, ?_⟩
  · intro h
    simp [App.compute, App.safe_div, h]
  · intro h
    simp only [App.compute, App.safe_div, if_neg h]
  · intro hltv hpos
    have hne : i.ltv_to_cac_target ≠ 0 := ne_of_gt hpos
    simp only [App.compute, App.safe_div, if_neg hne] at hltv ⊢
    rw [hltv, zero_div]
  · simp [Engine.max_cac_for_target_ratio, clamp_nonnegative_ok l "ltv" hl, ht,
      except_bind_ok]
  · simp [Engine.max_cac_for_target_ratio, clamp_nonnegative_ok 0 "ltv" le_rfl,
      not_le.mpr htr, except_bind_ok]
  · intro hlpos
    simp [Engine.max_cac_for_target_ratio, clamp_nonnegative_ok l "ltv" hl,
      not_le.mpr htr, not_le.mpr hlpos, except_bind_ok]

/-- Input for the C7 witness: a zero target ratio (and a zero LTV). -/
def c7Inputs : App.Inputs :=
  { price := 0, cogs_materials := 0, packaging := 0, shipping := 0,
    payment_fee_rate := 0, payment_fixed_fee := 0, labor_minutes := 0, labor_rate := 0,
    overhead_rate := 0, horizon_months := 12, repeat_orders_per_year := 0,
    gross_margin_holdback_rate := 0, refunds_rate := 0, ltv_to_cac_target := 0,
    cac_assumed := 0 }

/-- Witness for C7 (amended): a zero target ratio yields the NaN
sentinel in `app.py`, and the `scenario_engine` variant raises for a
zero target while returning `LTV / target_ratio` for a positive one. -/
theorem c7_max_cac_witness :
    (App.compute c7Inputs).max_cac_for_target = App.PyFloat.nan
    ∧ Engine.max_cac_for_target_ratio 100 0 = .error "target_ratio must be > 0"
    ∧ Engine.max_cac_for_target_ratio 100 12 = .ok (100 / 12) := by
  have h := c7_max_cac c7Inputs 100 0 12 (by norm_num) (by norm_num) (by norm_num)
  exact ⟨h.1 rfl, h.2.2.2.1, h.2.2.2.2.2 (by norm_num)⟩

/-! ## Claim C2 — the contribution-margin sentinel at price 0 -/

/-- Scenario-engine input with a zero selling price and non-zero costs. -/
def c2EngineInputs : Engine.ScenarioInputs :=
  { aov := 0, cogs := 5, packaging := 0, shipping_cost := 0, fee_rate := 0,
    fee_fixed := 0, labor_minutes_per_order := 0, labor_rate_per_hour := 0 }

/-- The result `compute_unit_economics` produces on `c2EngineInputs`. -/
def c2EngineResult : Engine.UnitEconomics :=
  { inputs := c2EngineInputs, payment_fees := 0, labor_cost := 0,
    total_variable_costs := 5, gross_profit := -5, contribution_margin := 0 }

/-- Counterexample to C2 as stated: with `aov = 0` the cited
`scenario_engine.compute_unit_economics` succeeds with
`contribution_margin = 0` — the number 0, not an "undefined" sentinel. -/
theorem c2_counterexample :
    Engine.compute_unit_economics c2EngineInputs = .ok c2EngineResult := by
  norm_num [Engine.compute_unit_economics, Engine.validate_inputs, Engine.clamp_nonnegative,
    Engine.clamp_01, Engine.safe_div, c2EngineInputs, c2EngineResult, Except.ok.injEq,
    Engine.UnitEconomics.mk.injEq, except_bind_ok]

/-- Input for the C2 witness on the `app.py` side: price 0. -/
def c2AppInputs : App.Inputs :=
  { price := 0, cogs_materials := 5, packaging := 0, shipping := 0,
    payment_fee_rate := 0, payment_fixed_fee := 0, labor_minutes := 0, labor_rate := 0,
    overhead_rate := 0, horizon_months := 12, repeat_orders_per_year := 0,
    gross_margin_holdback_rate := 0, refunds_rate := 0, ltv_to_cac_target := 12,
    cac_assumed := 0 }

/-- Amended C2: `app.py`'s `compute` yields the NaN sentinel for
`contribution_margin` at price 0 and `gross_profit / price` for a
positive price; the `scenario_engine` variant instead yields the number
0 at `aov = 0`. -/
theorem c2_contribution_margin (i : App.Inputs) (s : Engine.ScenarioInputs)
    (r : Engine.UnitEconomics) :
    (i.price = 0 → (App.compute i).contribution_margin = App.PyFloat.nan)
    ∧ (0 < i.price → (App.compute i).contribution_margin
        = App.PyFloat.val ((App.compute i).gross_profit / i.price))
    ∧ (Engine.compute_unit_economics s = .ok r → s.aov = 0 → r.contribution_margin = 0) := by
  refine ⟨?_, ?_, ?_⟩
  · intro h
    have e : (App.compute i).contribution_margin
        = App.safe_div (App.compute i).gross_profit i.price := rfl
    rw [e, h]
    unfold App.safe_div
    rw [if_pos rfl]
  · intro h
    simp only [App.compute, App.safe_div, if_neg (ne_of_gt h)]
  · intro hok haov
    cases hv : Engine.validate_inputs s with
    | error e =>
      simp [Engine.compute_unit_economics, hv, except_bind_ok] at hok
    | ok u =>
      simp [Engine.compute_unit_economics, hv, except_bind_ok] at hok
      rw [← hok]
      simp [Engine.safe_div, haov]

/-- Witness for C2 (amended): price 0 gives the NaN sentinel in
`app.py`, while `scenario_engine` returns the number 0. -/
theorem c2_contribution_margin_witness :
    (App.compute c2AppInputs).contribution_margin = App.PyFloat.nan
    ∧ c2EngineResult.contribution_margin = 0 := by
  have h := c2_contribution_margin c2AppInputs c2EngineInputs c2EngineResult
  refine ⟨h.1 rfl, h.2.2 ?_ rfl⟩
  norm_num [Engine.compute_unit_economics, Engine.validate_inputs, Engine.clamp_nonnegative,
    Engine.clamp_01, Engine.safe_div, c2EngineInputs, c2EngineResult, Except.ok.injEq,
    Engine.UnitEconomics.mk.injEq, except_bind_ok]

/-! ## Claim C10 — the directive loader -/

/-- Claim C10: `load_directive` raises `FileNotFoundError` for an absent
file, raises `ValueError` when the file's content strips to the empty
string (so whitespace-only counts as empty, a distinct failure), and
otherwise returns a `Directive` named after the filename with ".md"
removed, carrying the stripped content. -/
theorem c10_load_directive (dir : String → Option String) (filename raw : String) :
    (dir filename = none →
      Loader.load_directive dir filename
        = .error (.fileNotFound ("Directive file not found: " ++ filename)))
    ∧ (dir filename = some raw → WhiteOwl.pyStrip raw = "" →
      Loader.load_directive dir filename
        = .error (.valueError ("Directive \x27" ++ filename ++ "\x27 is empty.")))
    ∧ (dir filename = some raw → WhiteOwl.pyStrip raw ≠ "" →
      Loader.load_directive dir filename
        = .ok { name := WhiteOwl.replaceMd filename, filename := filename,
                content := WhiteOwl.pyStrip raw }) := by
  refine ⟨?_, ?_, ?_⟩
  · intro h
    simp [Loader.load_directive, h]
  · intro h he
    simp [Loader.load_directive, h, he]
  · intro h hne
    simp [Loader.load_directive, h, hne]

/-- A three-file catalogue for the C10 witness: a whitespace-only file,
a real file, and everything else absent. -/
def c10Dir : String → Option String := fun f =>
  if f = "blank.md" then some "  \n\t "
  else if f = "define_ltv_model.md" then some "  LTV model body\n"
  else none

/-- Witness for C10: the three branches of `load_directive` at concrete
files of `c10Dir` — absent, whitespace-only, and non-empty. -/
theorem c10_load_directive_witness :
    Loader.load_directive c10Dir "missing.md"
        = .error (.fileNotFound "Directive file not found: missing.md")
    ∧ Loader.load_directive c10Dir "blank.md"
        = .error (.valueError "Directive \x27blank.md\x27 is empty.")
    ∧ Loader.load_directive c10Dir "define_ltv_model.md"
        = .ok { name := "define_ltv_model", filename := "define_ltv_model.md",
                content := "LTV model body" } := by
  refine ⟨?_, ?_, ?_⟩
  · exact (c10_load_directive c10Dir "missing.md" "").1 rfl
  · exact (c10_load_directive c10Dir "blank.md" "  \n\t ").2.1 rfl (by decide)
  · have h := (c10_load_directive c10Dir "define_ltv_model.md" "  LTV model body\n").2.2
      rfl (by decide)
    rw [h]
    simp only [Except.ok.injEq, Loader.Directive.mk.injEq]
    refine ⟨?_, ?_, ?_⟩ <;> decide

/-! ## Router claims -/

/-- If either definition file is absent from the catalogue, the
definitions gate reports failure. -/
theorem router_gate_fails (cat : String → Bool)
    (hmiss : cat "define_ltv_model.md" = false ∨ cat "define_cac_model.md" = false) :
    (Router.enforce_definitions_gate cat).1 = false := by
  rcases hmiss with h | h <;>
    cases h2 : cat "define_ltv_model.md" <;>
    cases h3 : cat "define_cac_model.md" <;>
    simp_all [Router.enforce_definitions_gate, Router.REQUIRED_DEFINITION_FILES,
      List.filter]

/-- Claim C3: for every non-empty question, a catalogue missing one or
both definition files makes `route` return (not raise) a decision whose
directives list is exactly `["define_ltv_model.md",
"define_cac_model.md"]`, regardless of the question's content. -/
theorem c3_blocked_directives (question : String) (cat : String → Bool)
    (stream : ℕ → String) (hq : question ≠ "")
    (hmiss : cat "define_ltv_model.md" = false ∨ cat "define_cac_model.md" = false) :
    ((Router.route question cat stream).1).directives
      = ["define_ltv_model.md", "define_cac_model.md"] := by
  have hg := router_gate_fails cat hmiss
  simp [Router.route, hg]

/-- Witness for C3: a concrete pricing question against an empty
catalogue is routed to exactly the two definition directives. -/
theorem c3_blocked_directives_witness :
    ((Router.route "Should I raise prices?" (fun _ => false) (fun _ => "")).1).directives
      = ["define_ltv_model.md", "define_cac_model.md"] :=
  c3_blocked_directives "Should I raise prices?" (fun _ => false) (fun _ => "")
    (by decide) (Or.inl rfl)

/-- Counterexample to C1 as stated: on a catalogue missing both
definition files, `route` still performs classification work before the
gate — the blocked decision for the question "refund" carries the
classified pain signal "Customers are difficult" and decision type
"Customer Quality" (not defaults), and for the unclassifiable question
"zzz" the router consumes one clarifying answer from the interactive
stream (mapping "1" to "Pricing") even though the gate then blocks. -/
theorem c1_counterexample :
    ((Router.route "refund" (fun _ => false) (fun _ => "")).1).directives
        = ["define_ltv_model.md", "define_cac_model.md"]
    ∧ ((Router.route "refund" (fun _ => false) (fun _ => "")).1).pain_signal
        = "Customers are difficult"
    ∧ ((Router.route "refund" (fun _ => false) (fun _ => "")).1).decision_type
        = "Customer Quality"
    ∧ (Router.route "zzz" (fun _ => false) (fun _ => "1")).2 = 1
    ∧ ((Router.route "zzz" (fun _ => false) (fun _ => "1")).1).decision_type = "Pricing"
    ∧ ((Router.route "zzz" (fun _ => false) (fun _ => "1")).1).directives
        = ["define_ltv_model.md", "define_cac_model.md"] := by
  refine ⟨?_, ?_, ?_, ?_, ?_, ?_⟩ <;> decide

/-- Amended C1: the prerequisite gate does block the route (fixed
directive pair, fixed rationale) whenever a definition file is missing,
but it runs AFTER classification, not before: the blocked decision
carries the question's classified pain signal, time horizon and decision
type, and the single clarifying question is still asked (one stream
read) when the decision type is unclassified. -/
theorem c1_gate_after_classification (question : String) (cat : String → Bool)
    (stream : ℕ → String)
    (hmiss : cat "define_ltv_model.md" = false ∨ cat "define_cac_model.md" = false) :
    ((Router.route question cat stream).1).pain_signal
        = Router.classify_pain_signal (WhiteOwl.normalize_whitespace question)
    ∧ ((Router.route question cat stream).1).time_horizon
        = Router.classify_time_horizon (WhiteOwl.normalize_whitespace question)
    ∧ ((Router.route question cat stream).1).decision_type
        = (match Router.classify_decision_type (WhiteOwl.normalize_whitespace question) with
            | none => Router.ask_one_question (stream 0)
            | some d => d)
    ∧ (Router.route question cat stream).2
        = (if Router.classify_decision_type (WhiteOwl.normalize_whitespace question) = none
            then 1 else 0)
    ∧ ((Router.route question cat stream).1).directives
        = ["define_ltv_model.md", "define_cac_model.md"]
    ∧ ((Router.route question cat stream).1).why
        = "Definitions Gate FAIL: LTV/CAC definitions are missing or incomplete. No other routing is allowed until definitions are established." := by
  have hg := router_gate_fails cat hmiss
  cases hdt : Router.classify_decision_type (WhiteOwl.normalize_whitespace question) <;>
    simp [Router.route, hg, hdt]

/-- Witness for C1 (amended): concrete blocked route whose fields carry
the classification of "refund". -/
theorem c1_gate_after_classification_witness :
    ((Router.route "refund" (fun _ => false) (fun _ => "")).1).pain_signal
        = Router.classify_pain_signal (WhiteOwl.normalize_whitespace "refund")
    ∧ ((Router.route "refund" (fun _ => false) (fun _ => "")).1).directives
        = ["define_ltv_model.md", "define_cac_model.md"] := by
  have h := c1_gate_after_classification "refund" (fun _ => false) (fun _ => "")
    (Or.inl rfl)
  exact ⟨h.1, h.2.2.2.2.1⟩

/-- Claim C8: the router consumes exactly one clarifying answer when the
decision type is unclassified and none otherwise (never more than one,
never zero when unclassified), and the pure variant `decision_engine`
fails with the explicit unable-to-route error when no keyword group
matches the intent, instead of guessing a decision type. -/
theorem c8_one_clarifying_question (question : String) (cat : String → Bool)
    (stream : ℕ → String) (intent : String)
    (hnone : ∀ k ∈ DecEng.UNIT_ECON_KWS ++ DecEng.PRICING_KWS ++ DecEng.SCALING_KWS
        ++ DecEng.PRODUCT_MIX_KWS ++ DecEng.CUSTOMER_KWS,
        WhiteOwl.isSub k (DecEng.normalize intent) = false) :
    (Router.route question cat stream).2
        = (if Router.classify_decision_type (WhiteOwl.normalize_whitespace question) = none
            then 1 else 0)
    ∧ DecEng.decision_engine intent
        = .error "Unable to route intent to directives. Clarify the business question." := by
  constructor
  · cases hdt : Router.classify_decision_type (WhiteOwl.normalize_whitespace question) <;>
      simp [Router.route, hdt] <;> split <;> rfl
  · have hsub : ∀ (l : List String),
        (∀ k ∈ l, k ∈ DecEng.UNIT_ECON_KWS ++ DecEng.PRICING_KWS ++ DecEng.SCALING_KWS
          ++ DecEng.PRODUCT_MIX_KWS ++ DecEng.CUSTOMER_KWS) →
        l.any (fun k => WhiteOwl.isSub k (DecEng.normalize intent)) = false := by
      intro l hl
      rw [List.any_eq_false]
      intro k hk
      simp [hnone k (hl k hk)]
    have h1 := hsub DecEng.UNIT_ECON_KWS
      (by intro k hk; simp only [List.mem_append]; tauto)
    have h2 := hsub DecEng.PRICING_KWS
      (by intro k hk; simp only [List.mem_append]; tauto)
    have h3 := hsub DecEng.SCALING_KWS
      (by intro k hk; simp only [List.mem_append]; tauto)
    have h4 := hsub DecEng.PRODUCT_MIX_KWS
      (by intro k hk; simp only [List.mem_append]; tauto)
    have h5 := hsub DecEng.CUSTOMER_KWS
      (by intro k hk; simp only [List.mem_append]; tauto)
    simp [DecEng.decision_engine, h1, h2, h3, h4, h5]

/-- Witness for C8: the keyword-free intent "xyzzy qwfp" makes the pure
variant fail with the unable-to-route error, and the unclassifiable
question "zzz" consumes exactly one clarifying answer. -/
theorem c8_one_clarifying_question_witness :
    DecEng.decision_engine "xyzzy qwfp"
        = .error "Unable to route intent to directives. Clarify the business question."
    ∧ (Router.route "zzz" (fun _ => true) (fun _ => "1")).2
        = (if Router.classify_decision_type (WhiteOwl.normalize_whitespace "zzz") = none
            then 1 else 0) := by
  have h := c8_one_clarifying_question "zzz" (fun _ => true) (fun _ => "1") "xyzzy qwfp"
    (by decide)
  exact ⟨h.2, h.1⟩

/-! ## Claim C9 — decision-type classification -/

/-- Every category's score is bounded by the best score. -/
theorem score_le_best (q : String) :
    ∀ d ∈ Router.DECISION_TYPES, Router.scoreOf q d ≤ Router.bestScore q := by
  intro d hd
  fin_cases hd <;>
    simp only [Router.bestScore, Router.DECISION_TYPES, List.map_cons, List.map_nil,
      List.foldr_cons, List.foldr_nil] <;>
    omega

/-- A fold of `max` over naturals is 0 or one of the folded values. -/
theorem foldr_max_attained : ∀ l : List ℕ, l.foldr max 0 = 0 ∨ l.foldr max 0 ∈ l := by
  intro l
  induction l with
  | nil => exact Or.inl rfl
  | cons a t ih =>
    rcases max_choice a (t.foldr max 0) with h | h
    · right
      rw [List.foldr_cons, h]
      exact List.mem_cons_self a t
    · rcases ih with h0 | hm
      · left
        rw [List.foldr_cons, h, h0]
      · right
        rw [List.foldr_cons, h]
        exact List.mem_cons_of_mem a hm

/-- A non-zero best score is attained by some category. -/
theorem best_attained (q : String) (h : Router.bestScore q ≠ 0) :
    ∃ d ∈ Router.DECISION_TYPES, Router.scoreOf q d = Router.bestScore q := by
  rcases foldr_max_attained (Router.DECISION_TYPES.map (Router.scoreOf q)) with h0 | hm
  · exact absurd h0 h
  · obtain ⟨d, hd, he⟩ := List.mem_map.mp hm
    exact ⟨d, hd, he⟩

/-- The priority list and the category list hold the same eight
categories. -/
theorem mem_priority_iff (d : String) :
    d ∈ Router.PRIORITY ↔ d ∈ Router.DECISION_TYPES := by
  simp only [Router.PRIORITY, Router.DECISION_TYPES, List.mem_cons, List.not_mem_nil,
    or_false]
  tauto

/-- A category sits in the tied list exactly when its score is the best
score. -/
theorem tied_contains_iff (q d : String) (hd : d ∈ Router.DECISION_TYPES) :
    (Router.tiedAtBest q).contains d = true ↔ Router.scoreOf q d = Router.bestScore q := by
  simp only [Router.tiedAtBest, List.contains, List.elem_iff, List.mem_filter,
    beq_iff_eq]
  tauto

/-- `find?` returns the match of least index. -/
theorem find_first_le {α : Type} [DecidableEq α] {p : α → Bool} :
    ∀ (l : List α) (d : α), l.find? p = some d →
      ∀ d' ∈ l, p d' = true → l.indexOf d ≤ l.indexOf d' := by
  intro l
  induction l with
  | nil =>
    intro d h
    simp at h
  | cons a t ih =>
    intro d h d' hd' hp
    by_cases ha : p a = true
    · rw [List.find?_cons_of_pos t ha] at h
      injection h with h
      subst h
      simp [List.indexOf_cons_self]
    · rw [List.find?_cons_of_neg t ha] at h
      have hda : a ≠ d := by
        rintro rfl
        exact ha (List.find?_some h)
      have hd'mem : d' ∈ t := by
        rcases List.mem_cons.mp hd' with rfl | hm
        · exact absurd hp ha
        · exact hm
      have hd'a : a ≠ d' := by
        rintro rfl
        exact ha hp
      rw [List.indexOf_cons_ne t hda, List.indexOf_cons_ne t hd'a]
      exact Nat.succ_le_succ (ih d h d' hd'mem hp)

/-- The definitional unfolding of `classify_decision_type`. -/
theorem classify_decision_type_eq (question : String) :
    Router.classify_decision_type question
      = (if Router.bestScore (WhiteOwl.pyLower question) = 0 then none
         else
           match Router.PRIORITY.find?
               (fun p => (Router.tiedAtBest (WhiteOwl.pyLower question)).contains p) with
           | some p => some p
           | none => (Router.tiedAtBest (WhiteOwl.pyLower question)).head?) := rfl

/-- Claim C9: decision-type classification scores each of the 8 fixed
categories by counting keyword-substring hits, returns `none`
("unclassified") exactly when every category scores 0, and otherwise
returns a highest-scoring category, breaking ties by the fixed priority
order (least index in the priority list wins). -/
theorem c9_decision_type_classification (question : String) :
    (Router.classify_decision_type question = none
        ↔ ∀ d ∈ Router.DECISION_TYPES, Router.scoreOf (WhiteOwl.pyLower question) d = 0)
    ∧ (∀ d, Router.classify_decision_type question = some d →
        d ∈ Router.DECISION_TYPES
        ∧ (∀ d' ∈ Router.DECISION_TYPES,
            Router.scoreOf (WhiteOwl.pyLower question) d'
              ≤ Router.scoreOf (WhiteOwl.pyLower question) d)
        ∧ (∀ d' ∈ Router.DECISION_TYPES,
            Router.scoreOf (WhiteOwl.pyLower question) d'
              = Router.scoreOf (WhiteOwl.pyLower question) d
            → Router.PRIORITY.indexOf d ≤ Router.PRIORITY.indexOf d')) := by
  by_cases hb : Router.bestScore (WhiteOwl.pyLower question) = 0
  · have hnone : Router.classify_decision_type question = none := by
      rw [classify_decision_type_eq, if_pos hb]
    constructor
    · constructor
      · intro _ d hd
        have h := score_le_best (WhiteOwl.pyLower question) d hd
        omega
      · intro _
        exact hnone
    · intro d hd
      rw [hnone] at hd
      exact absurd hd (by simp)
  · obtain ⟨d0, hd0mem, hd0⟩ := best_attained (WhiteOwl.pyLower question) hb
    have hd0p : d0 ∈ Router.PRIORITY := (mem_priority_iff d0).mpr hd0mem
    have hd0c : (Router.tiedAtBest (WhiteOwl.pyLower question)).contains d0 = true :=
      (tied_contains_iff (WhiteOwl.pyLower question) d0 hd0mem).mpr hd0
    cases hf : Router.PRIORITY.find?
        (fun p => (Router.tiedAtBest (WhiteOwl.pyLower question)).contains p) with
    | none =>
      exfalso
      have hs : (Router.PRIORITY.find?
          (fun p => (Router.tiedAtBest (WhiteOwl.pyLower question)).contains p)).isSome :=
        List.find?_isSome.mpr ⟨d0, hd0p, hd0c⟩
      rw [hf] at hs
      simp at hs
    | some p =>
      have hcl : Router.classify_decision_type question = some p := by
        rw [classify_decision_type_eq, if_neg hb, hf]
      have hpc : (Router.tiedAtBest (WhiteOwl.pyLower question)).contains p = true :=
        List.find?_some hf
      have hpmem : p ∈ Router.DECISION_TYPES :=
        (mem_priority_iff p).mp (List.mem_of_find?_eq_some hf)
      have hps : Router.scoreOf (WhiteOwl.pyLower question) p
          = Router.bestScore (WhiteOwl.pyLower question) :=
        (tied_contains_iff (WhiteOwl.pyLower question) p hpmem).mp hpc
      constructor
      · constructor
        · intro h
          rw [hcl] at h
          exact absurd h (by simp)
        · intro hall
          exfalso
          apply hb
          rw [← hd0, hall d0 hd0mem]
      · intro d hd
        rw [hcl] at hd
        injection hd with hd
        subst hd
        refine ⟨hpmem, ?_, ?_⟩
        · intro d' hd'
          have h := score_le_best (WhiteOwl.pyLower question) d' hd'
          omega
        · intro d' hd' heq
          have hd'p : d' ∈ Router.PRIORITY := (mem_priority_iff d').mpr hd'
          have hd'c : (Router.tiedAtBest (WhiteOwl.pyLower question)).contains d' = true :=
            (tied_contains_iff (WhiteOwl.pyLower question) d' hd').mpr (by rw [heq, hps])
          exact find_first_le Router.PRIORITY p hf d' hd'p hd'c

/-- Witness for C9: the question "profit" scores only in Financial
Viability, which the classifier returns, and that category's score
bounds all others. -/
theorem c9_decision_type_classification_witness :
    "Financial Viability" ∈ Router.DECISION_TYPES
    ∧ (∀ d' ∈ Router.DECISION_TYPES,
        Router.scoreOf (WhiteOwl.pyLower "profit") d'
          ≤ Router.scoreOf (WhiteOwl.pyLower "profit") "Financial Viability") := by
  have h := (c9_decision_type_classification "profit").2 "Financial Viability" (by decide)
  exact ⟨h.1, h.2.1⟩
